import Mathlib

/-!
# zap-logging: leveled logging and HTTP instrumentation

A shallow embedding of `logger.go` and `middleware.go`.

* The zap logger is an external service.  A call of one of its emission
  operations (`logger.Info(msg, fields...)`, ...) is modelled by the `Entry` it
  hands to that service, and a function of the package by the `Run` it produces:
  the entries handed over, in order, and the way control leaves the function.
  Whether the service writes an entry it is handed depends on its threshold,
  which `Set` configures; that filtering is done inside zap and is not part of
  the embedding.
* `http.Header` is a Go map from canonical header names to value lists, i.e. a
  partial function.  `Get` and `Set` canonicalise the name they are given; the
  four names used by the package are already in canonical form.
* A downstream handler is described by the calls it makes on the
  `http.ResponseWriter` it is given and by the state in which it leaves the
  request.
-/

set_option linter.unusedTactic false
set_option linter.unreachableTactic false

namespace Logging

/-! ## Levels (zapcore) -/

/-- A zapcore.Level is a signed integer; the constants below have the values
zapcore gives them, Debug being -1 and Info 0, the zero value of the type. -/
abbrev Level := Int

def DebugLevel : Level := -1
def InfoLevel : Level := 0
def WarnLevel : Level := 1
def ErrorLevel : Level := 2
def DPanicLevel : Level := 3
def PanicLevel : Level := 4
def FatalLevel : Level := 5

/-- The package variable `logLevel`, a map from level names to levels. -/
def logLevel : List (String × Level) :=
  [ ("debug", DebugLevel),
    ("info", InfoLevel),
    ("warn", WarnLevel),
    ("error", ErrorLevel),
    ("dpanic", DPanicLevel),
    ("panic", PanicLevel),
    ("fatal", FatalLevel) ]

/-- Go map indexing `logLevel[k]`: the stored level, or the zero value of the
element type when the key is missing. -/
def logLevelIndex (k : String) : Level :=
  match logLevel.lookup k with
  | some l => l
  | none => 0

def Info : String := "info"
def Debug : String := "debug"
def Error : String := "error"
def Warn : String := "warn"
def Panic : String := "panic"
def Fatal : String := "fatal"

/-! ## HTTP requests and headers -/

/-- An http.Header: a map from header names to their lists of values. -/
abbrev Header := String → Option (List String)

/-- The empty header map. -/
def Header.empty : Header := fun _ => none

/-- Header.Get returns the first value stored under the key, or the empty
string when there is none. -/
def Header.Get (h : Header) (key : String) : String :=
  match h key with
  | some (v :: _) => v
  | _ => ""

/-- Header.Set replaces whatever is stored under the key by the single value. -/
def Header.Set (h : Header) (key value : String) : Header :=
  fun k => if k = key then some [value] else h k

/-- The fields of http.Request read or written by the package. -/
structure Request where
  Method : String
  RequestURI : String
  Host : String
  RemoteAddr : String
  Header : Header

def CorrelationIDHeader : String := "X-Correlation-Id"
def UserCorrelationIDHeader : String := "X-User-Correlation-Id"

/-- The function strings.Split for a one-character separator: the pieces
between consecutive separators, in order.  The empty string has the single
piece "". -/
def Split (sep : Char) : List Char → List (List Char)
  | [] => [[]]
  | c :: cs =>
    if c = sep then [] :: Split sep cs
    else
      match Split sep cs with
      | [] => [[c]]
      | p :: ps => (c :: p) :: ps

/-- The function getRemoteIP of logger.go.  Split never returns an empty
slice (see Split_ne_nil), so the index expression [0] cannot go out of
range and the last case below is never taken. -/
def getRemoteIP (r : Request) : String :=
  if r.Header.Get "X-Cluster-Client-Ip" ≠ "" then
    r.Header.Get "X-Cluster-Client-Ip"
  else if r.Header.Get "X-Real-Ip" ≠ "" then
    r.Header.Get "X-Real-Ip"
  else
    match Split ':' r.RemoteAddr.data with
    | first :: _ => String.mk first
    | [] => ""

/-! ## Log entries and the logger -/

/-- JSON values, as produced by json.Marshal and decoded by json.Unmarshal.
A number is kept as its literal text. -/
inductive JSON where
  | null
  | bool (b : Bool)
  | number (text : String)
  | string (s : String)
  | array (items : List JSON)
  | object (members : List (String × JSON))

/-- The value carried by a zap field. -/
inductive FieldValue where
  | str (s : String)
  | int (n : Int)
  | any (v : JSON)

/-- A zapcore.Field: a key and a typed value. -/
structure Field where
  key : String
  value : FieldValue

/-- The constructor zap.String. -/
def zapString (key value : String) : Field := ⟨key, .str value⟩

/-- The constructor zap.Int. -/
def zapInt (key : String) (value : Int) : Field := ⟨key, .int value⟩

/-- The constructor zap.Any on a decoded JSON value: a string becomes a string
field, any other value is kept as it is. -/
def zapAny (key : String) (value : JSON) : Field :=
  match value with
  | .string s => zapString key s
  | v => ⟨key, .any v⟩

/-- One record handed to the logging service: the severity of the emission
operation that was called, the message and the fields. -/
structure Entry where
  level : Level
  message : String
  fields : List Field

/-- How control leaves a function. -/
inductive Control where
  | returned
  | panicked (value : String)
  | exited (code : Int)

/-- What a logging function does: the records it emits, oldest first, and how
control leaves it. -/
structure Run where
  entries : List Entry
  control : Control

/-- A zap.Logger, reduced to the fields added to it by With. -/
structure Logger where
  context : List Field

/-- The package variable logger. -/
def logger : Logger := ⟨[]⟩

/-- Logger.With: a child logger carrying the extra fields. -/
def Logger.With (lg : Logger) (fields : List Field) : Logger :=
  ⟨lg.context ++ fields⟩

/-- What zap does once the record of an emission at the given level is
written: Panic panics with the message, Fatal exits with status 1, every other
level returns. -/
def afterWrite (lvl : Level) (msg : String) : Control :=
  if lvl = PanicLevel then .panicked msg
  else if lvl = FatalLevel then .exited 1
  else .returned

/-- The emission operation of a logger at one level. -/
def Logger.log (lg : Logger) (lvl : Level) (msg : String) (fields : List Field) : Run :=
  { entries := [{ level := lvl, message := msg, fields := lg.context ++ fields }],
    control := afterWrite lvl msg }

def Logger.Debug (lg : Logger) (msg : String) (fields : List Field) : Run :=
  lg.log DebugLevel msg fields

def Logger.Info (lg : Logger) (msg : String) (fields : List Field) : Run :=
  lg.log InfoLevel msg fields

def Logger.Warn (lg : Logger) (msg : String) (fields : List Field) : Run :=
  lg.log WarnLevel msg fields

def Logger.Error (lg : Logger) (msg : String) (fields : List Field) : Run :=
  lg.log ErrorLevel msg fields

def Logger.Panic (lg : Logger) (msg : String) (fields : List Field) : Run :=
  lg.log PanicLevel msg fields

def Logger.Fatal (lg : Logger) (msg : String) (fields : List Field) : Run :=
  lg.log FatalLevel msg fields

/-! ## Configuration -/

/-- The zapcore.EncoderConfig fields given by Set; the two encoders are named
rather than embedded. -/
structure EncoderConfig where
  MessageKey : String
  LevelKey : String
  EncodeLevel : String
  TimeKey : String
  EncodeTime : String

/-- The zap.Config fields given by Set. -/
structure Config where
  Encoding : String
  Level : Level
  OutputPaths : List String
  EncoderConfig : EncoderConfig

/-- The function Set of logger.go: the configuration from which the two package
loggers are built.  The library function strings.ToLower is a parameter. -/
def Set (ToLower : String → String) (level : String) : Config :=
  { Encoding := "json",
    Level := logLevelIndex (ToLower level),
    OutputPaths := ["stdout"],
    EncoderConfig :=
      { MessageKey := "message",
        LevelKey := "level",
        EncodeLevel := "CapitalLevelEncoder",
        TimeKey := "time",
        EncodeTime := "ISO8601TimeEncoder" } }

/-! ## Lifecycle, access and correlated logging -/

/-- The function strconv.Itoa: the decimal rendering of an integer. -/
def Itoa (n : Int) : String := toString n

/-- A Go error value, given by the text its Error method returns. -/
structure GoError where
  Error : String

/-- An os.Signal, given by the text its String method returns. -/
structure Signal where
  String : String

/-- The verb %v applied to a value of interface type os.Signal. -/
def fmtSignal : Option Signal → String
  | some s => s.String
  | none => "<nil>"

/-- The function LogAppStop of logger.go. -/
def LogAppStop (name : String) (signal : Option Signal) (err : Option GoError) : Run :=
  let typeField := zapString "type" "lifecycle"
  let eventField := zapString "event" "stop"
  match err with
  | some e =>
    let message := "stopping application: " ++ name ++ " (" ++ e.Error ++ ")"
    logger.Error message [typeField, eventField]
  | none =>
    let message := "stopping application: " ++ name ++ " (" ++ fmtSignal signal ++ ")"
    logger.Info message [typeField, eventField]

/-- The function LogRequest of logger.go. -/
def LogRequest (r : Request) (statusCode : Int) : Run :=
  logger.Info (Itoa statusCode ++ " ->" ++ r.Method ++ " " ++ r.RequestURI)
    [ zapString "type" "access",
      zapString "event" "request",
      zapString "remote_ip" (getRemoteIP r),
      zapString "host" r.Host,
      zapString "url_path" r.RequestURI,
      zapString "method" r.Method,
      zapInt "status_code" statusCode,
      zapString "correlation_id" (r.Header.Get CorrelationIDHeader),
      zapString "user_correlation_id" (r.Header.Get UserCorrelationIDHeader) ]

/-- The function LogWithCorrelationIDS of logger.go. -/
def LogWithCorrelationIDS (severity message correlationID userCorrelationID : String) : Run :=
  let lg := logger.With
    [ zapString "correlation_id" correlationID,
      zapString "user_correlation_id" userCorrelationID ]
  if severity = Debug then lg.Debug message []
  else if severity = Error then lg.Error message []
  else if severity = Warn then lg.Warn message []
  else if severity = Fatal then lg.Fatal message []
  else if severity = Panic then lg.Panic message []
  else lg.Info message []

/-- A Go value as encoding/json sees it: either a value that json.Marshal
rejects, with the text of the error it reports, or a value with its JSON
encoding. -/
inductive GoValue where
  | unsupported (err : String)
  | encodes (json : JSON)

/-- The function json.Marshal, with the encoded text kept as a JSON value. -/
def Marshal : GoValue → Except GoError JSON
  | .unsupported err => .error ⟨err⟩
  | .encodes json => .ok json

/-- The name encoding/json gives to a JSON value in an UnmarshalTypeError. -/
def JSON.kind : JSON → String
  | .null => "null"
  | .bool _ => "bool"
  | .number _ => "number"
  | .string _ => "string"
  | .array _ => "array"
  | .object _ => "object"

/-- A Go map from strings to interface values holding decoded JSON: the nil
map, or an allocated map given by its entries. -/
abbrev FieldMap := Option (List (String × JSON))

/-- The map assignment m[k] = v on an allocated map. -/
def mapAssign (m : List (String × JSON)) (k : String) (v : JSON) : List (String × JSON) :=
  m.filter (fun e => e.1 ≠ k) ++ [(k, v)]

/-- The constant maxNestingDepth of encoding/json: how many arrays and objects
may be open at once in a document that json.Unmarshal accepts. -/
def maxNestingDepth : Nat := 10000

mutual
/-- The depth check that json.Unmarshal makes before it stores anything: the
first opening bracket, in document order, that would be open together with
more than room others, when there is one. -/
def JSON.tooDeep (room : Nat) : JSON → Option Char
  | .array items => if room = 0 then some '[' else itemsTooDeep (room - 1) items
  | .object members =>
    if room = 0 then some (Char.ofNat 123) else membersTooDeep (room - 1) members
  | _ => none
/-- The depth check along the items of an array. -/
def itemsTooDeep (room : Nat) : List JSON → Option Char
  | [] => none
  | v :: vs =>
    match v.tooDeep room with
    | some c => some c
    | none => itemsTooDeep room vs
/-- The depth check along the members of an object. -/
def membersTooDeep (room : Nat) : List (String × JSON) → Option Char
  | [] => none
  | (_, v) :: ms =>
    match v.tooDeep room with
    | some c => some c
    | none => membersTooDeep room ms
end

mutual
/-- The Go value that json.Unmarshal stores for a JSON value in a variable of
interface type, kept as a JSON value.  A number is converted with
strconv.ParseFloat; inRange tells whether that conversion accepts the text of
the number, and nil is stored for a number it rejects. -/
def JSON.decoded (inRange : String → Bool) : JSON → JSON
  | .number text => if inRange text then .number text else .null
  | .array items => .array (decodedItems inRange items)
  | .object members => .object (decodedMembers inRange members)
  | v => v
/-- The decoded items of an array. -/
def decodedItems (inRange : String → Bool) : List JSON → List JSON
  | [] => []
  | v :: vs => v.decoded inRange :: decodedItems inRange vs
/-- The decoded members of an object. -/
def decodedMembers (inRange : String → Bool) : List (String × JSON) → List (String × JSON)
  | [] => []
  | (k, v) :: ms => (k, v.decoded inRange) :: decodedMembers inRange ms
end

mutual
/-- The error json.Unmarshal reports after decoding a JSON value into a
variable of interface type: the one of the first number, in document order,
that strconv.ParseFloat rejects, when there is one.  Decoding goes on after
such an error. -/
def JSON.decodeError (inRange : String → Bool) : JSON → Option GoError
  | .number text =>
    if inRange text then none
    else some ⟨"json: cannot unmarshal number " ++ text ++ " into Go value of type float64"⟩
  | .array items => itemsDecodeError inRange items
  | .object members => membersDecodeError inRange members
  | _ => none
/-- The first decoding error among the items of an array. -/
def itemsDecodeError (inRange : String → Bool) : List JSON → Option GoError
  | [] => none
  | v :: vs =>
    match v.decodeError inRange with
    | some err => some err
    | none => itemsDecodeError inRange vs
/-- The first decoding error among the members of an object. -/
def membersDecodeError (inRange : String → Bool) : List (String × JSON) → Option GoError
  | [] => none
  | (_, v) :: ms =>
    match v.decodeError inRange with
    | some err => some err
    | none => membersDecodeError inRange ms
end

/-- The function json.Unmarshal into a variable whose type is a map from
strings to interface values; inRange stands for the range check of
strconv.ParseFloat.  A document nested too deeply is rejected before anything
is stored.  A JSON object is stored member by member (allocating the map when
it is nil), every member being stored even when a number in it is out of range,
which is reported as the error.  The value null leaves the variable as it is,
and any other JSON value is a type error that leaves the variable as it is. -/
def Unmarshal (inRange : String → Bool) (data : JSON) (fields : FieldMap) :
    FieldMap × Option GoError :=
  match data.tooDeep maxNestingDepth with
  | some c =>
    (fields, some ⟨"invalid character \x27" ++ String.mk [c] ++ "\x27 exceeded max depth"⟩)
  | none =>
    match data with
    | .object members =>
      let start := match fields with
        | some m => m
        | none => []
      (some ((decodedMembers inRange members).foldl (fun m e => mapAssign m e.1 e.2) start),
        membersDecodeError inRange members)
    | .null => (fields, none)
    | v =>
      (fields,
        some ⟨"json: cannot unmarshal " ++ v.kind ++
          " into Go value of type map[string]interface \x7b\x7d"⟩)

/-- The order in which a range statement visits the entries of a map: Go leaves
it unspecified, so it is any rearrangement of the entries. -/
structure MapOrder where
  visit : List (String × JSON) → List (String × JSON)
  perm : ∀ m, (visit m).Perm m

/-- The order that visits the entries as they are stored. -/
def MapOrder.stored : MapOrder := ⟨fun m => m, fun _ => List.Perm.refl _⟩

/-- The loop of LogAppStart over the map: one zap.Any field per entry, in the
order in which the entries are visited.  Ranging over the nil map runs no
iteration. -/
def rangeFields (order : MapOrder) : FieldMap → List Field
  | none => []
  | some m => (order.visit m).map (fun e => zapAny e.1 e.2)

/-- The function LogAppStart of logger.go; inRange stands for the range check
of strconv.ParseFloat and order for the iteration order of the range
statement.  Assigning to an entry of the nil map is a run-time panic. -/
def LogAppStart (inRange : String → Bool) (order : MapOrder) (name : String)
    (args : GoValue) : Run :=
  let fields : FieldMap := none
  let finish (fields : FieldMap) : Run :=
    let typeField := zapString "type" "lifecycle"
    let eventField := zapString "event" "start"
    let zapFields := [typeField, eventField] ++ rangeFields order fields
    let message := "starting application: " ++ name
    logger.Info message zapFields
  match Marshal args with
  | .ok jsonString =>
    match Unmarshal inRange jsonString fields with
    | (fields, some err) =>
      match fields with
      | some m => finish (some (mapAssign m "parse_error" (.string err.Error)))
      | none => { entries := [], control := .panicked "assignment to entry in nil map" }
    | (fields, none) => finish fields
  | .error _ => finish fields

/-! ## Middleware -/

/-- The constant http.StatusOK. -/
def StatusOK : Int := 200

/-- A call received by the http.ResponseWriter of the server. -/
inductive WriterCall where
  | WriteHeader (code : Int)
  | Write (p : List Nat)

/-- The http.ResponseWriter that the server hands to the middleware, as seen
from outside: its header map and the WriteHeader and Write calls it has
received, oldest first. -/
structure RealWriter where
  header : Header
  calls : List WriterCall

def RealWriter.WriteHeader (rw : RealWriter) (code : Int) : RealWriter :=
  { rw with calls := rw.calls ++ [.WriteHeader code] }

def RealWriter.Write (rw : RealWriter) (p : List Nat) : RealWriter :=
  { rw with calls := rw.calls ++ [.Write p] }

/-- The call rw.Header().Set(key, value). -/
def RealWriter.HeaderSet (rw : RealWriter) (key value : String) : RealWriter :=
  { rw with header := rw.header.Set key value }

/-- The type ResponseWriter of middleware.go: the embedded writer and the
recorded status code. -/
structure ResponseWriter where
  embedded : RealWriter
  StatusCode : Int

/-- The constructor NewLoggingResponseWriter. -/
def NewLoggingResponseWriter (rw : RealWriter) : ResponseWriter :=
  ⟨rw, StatusOK⟩

/-- The method WriteHeader of ResponseWriter. -/
def ResponseWriter.WriteHeader (lrw : ResponseWriter) (code : Int) : ResponseWriter :=
  let lrw := { lrw with StatusCode := code }
  { lrw with embedded := lrw.embedded.WriteHeader code }

/-- The method Write, promoted from the embedded writer. -/
def ResponseWriter.Write (lrw : ResponseWriter) (p : List Nat) : ResponseWriter :=
  { lrw with embedded := lrw.embedded.Write p }

/-- The call lrw.Header().Set(key, value); Header is promoted from the embedded
writer. -/
def ResponseWriter.HeaderSet (lrw : ResponseWriter) (key value : String) : ResponseWriter :=
  { lrw with embedded := lrw.embedded.HeaderSet key value }

/-- One call a handler makes on the http.ResponseWriter it is given. -/
inductive Op where
  | WriteHeader (code : Int)
  | Write (p : List Nat)
  | HeaderSet (key value : String)

/-- The route parameters of httprouter. -/
abbrev Params := List (String × String)

/-- What one invocation of a handler does: the calls it makes on its writer, in
order, and the state in which it leaves the request it was given. -/
structure Served where
  ops : List Op
  request : Request

/-- An http.Handler. -/
abbrev Handler := Request → Served

/-- An httprouter.Handle. -/
abbrev Handle := Request → Params → Served

/-- A call made on a ResponseWriter value through the http.ResponseWriter
interface. -/
def ResponseWriter.call (lrw : ResponseWriter) : Op → ResponseWriter
  | .WriteHeader code => lrw.WriteHeader code
  | .Write p => lrw.Write p
  | .HeaderSet key value => lrw.HeaderSet key value

/-- The result of serving one request through an access-logging middleware:
the writer of the server, the request, and the logging done. -/
structure Access where
  rw : RealWriter
  request : Request
  log : Run

/-- The function HTTPHandlerMiddleware of middleware.go, applied to a writer
and a request. -/
def HTTPHandlerMiddleware (next : Handler) (rw : RealWriter) (r : Request) : Access :=
  let lrw := NewLoggingResponseWriter rw
  let served := next r
  let lrw := served.ops.foldl ResponseWriter.call lrw
  let r := served.request
  { rw := lrw.embedded, request := r, log := LogRequest r lrw.StatusCode }

/-- The function HTTPRouterMiddleware of middleware.go, applied to a writer, a
request and route parameters. -/
def HTTPRouterMiddleware (next : Handle) (rw : RealWriter) (r : Request) (ps : Params) :
    Access :=
  let lrw := NewLoggingResponseWriter rw
  let served := next r ps
  let lrw := served.ops.foldl ResponseWriter.call lrw
  let r := served.request
  { rw := lrw.embedded, request := r, log := LogRequest r lrw.StatusCode }

/-- The source of uuid.NewString: the strings it returns, in order, and how
many have been drawn. -/
structure UUIDSource where
  gen : Nat → String
  drawn : Nat

/-- The function uuid.NewString. -/
def UUIDSource.NewString (u : UUIDSource) : String × UUIDSource :=
  (u.gen u.drawn, { u with drawn := u.drawn + 1 })

/-- The function CorrelationMiddleware of middleware.go, applied to a writer
and a request; next stands for next.ServeHTTP. -/
def CorrelationMiddleware {α : Type} (next : RealWriter → Request → UUIDSource → α)
    (rw : RealWriter) (r : Request) (u : UUIDSource) : α :=
  let id := r.Header.Get CorrelationIDHeader
  let (id, r, u) :=
    if id = "" then
      let (id, u) := u.NewString
      (id, { r with Header := r.Header.Set CorrelationIDHeader id }, u)
    else (id, r, u)
  let userID := r.Header.Get UserCorrelationIDHeader
  let (userID, r, u) :=
    if userID = "" then
      let (userID, u) := u.NewString
      (userID, { r with Header := r.Header.Set UserCorrelationIDHeader userID }, u)
    else (userID, r, u)
  let rw := rw.HeaderSet CorrelationIDHeader id
  let rw := rw.HeaderSet UserCorrelationIDHeader userID
  next rw r u

/-- A handler that only reports what it was handed. -/
def handed (rw : RealWriter) (r : Request) (u : UUIDSource) : RealWriter × Request × UUIDSource :=
  (rw, r, u)

/-! ## Reference functions, from the wording of the specification -/

/-- The host portion of a peer address as the specification words it: the part
before the last colon (the whole address when it has no colon). -/
def hostPortion (addr : String) : String :=
  if ':' ∈ addr.data then
    String.mk ((addr.data.reverse.dropWhile (fun c => c ≠ ':')).drop 1).reverse
  else addr

/-- The code of the last WriteHeader call among the calls of a handler, when
it made one. -/
def lastWriteHeader : List Op → Option Int
  | [] => none
  | op :: rest =>
    match lastWriteHeader rest with
    | some code => some code
    | none =>
      match op with
      | .WriteHeader code => some code
      | _ => none

/-- The status an access record is expected to carry: the code of the last
WriteHeader call of the handler, or 200 when it made none. -/
def expectedStatus (ops : List Op) : Int :=
  match lastWriteHeader ops with
  | some code => code
  | none => 200

/-- The WriteHeader and Write calls among the calls of a handler, as calls on
the writer of the server. -/
def writerCalls : List Op → List WriterCall
  | [] => []
  | .WriteHeader code :: rest => .WriteHeader code :: writerCalls rest
  | .Write p :: rest => .Write p :: writerCalls rest
  | .HeaderSet _ _ :: rest => writerCalls rest

/-- The header map of a writer after the Header().Set calls among the calls of
a handler. -/
def headerAfter (h : Header) : List Op → Header
  | [] => h
  | .HeaderSet key value :: rest => headerAfter (h.Set key value) rest
  | _ :: rest => headerAfter h rest

/-- A sample UUID source for examples: the strings a, aa, aaa, ... -/
def sampleUUID (i : Nat) : String := String.mk (List.replicate (i + 1) 'a')

/-! ## Theorems -/

theorem Split_ne_nil (sep : Char) (s : List Char) : Split sep s ≠ [] := by
  cases s with
  | nil => simp [Split]
  | cons c cs =>
    unfold Split
    split
    · simp
    · split <;> simp

theorem Header.Get_absent (h : Header) (key : String) (habs : h key = none) :
    h.Get key = "" := by
  simp [Header.Get, habs]

theorem Header.Get_Set_same (h : Header) (key value : String) :
    (h.Set key value).Get key = value := by
  simp [Header.Get, Header.Set]

theorem Header.Get_Set_other (h : Header) (key value other : String) (hne : other ≠ key) :
    (h.Set key value).Get other = h.Get other := by
  simp [Header.Get, Header.Set, hne]

/-- C3: getRemoteIP returns the X-Cluster-Client-Ip header value whenever that
value is non-empty, whatever the X-Real-Ip header and the peer address are; and
when the X-Cluster-Client-Ip value is absent or empty and the X-Real-Ip value is
non-empty, it returns the X-Real-Ip value, whatever the peer address is. -/
theorem getRemoteIP_header_precedence (r : Request) :
    (r.Header.Get "X-Cluster-Client-Ip" ≠ "" →
      getRemoteIP r = r.Header.Get "X-Cluster-Client-Ip") ∧
    (r.Header "X-Cluster-Client-Ip" = none → r.Header.Get "X-Real-Ip" ≠ "" →
      getRemoteIP r = r.Header.Get "X-Real-Ip") ∧
    (r.Header.Get "X-Cluster-Client-Ip" = "" → r.Header.Get "X-Real-Ip" ≠ "" →
      getRemoteIP r = r.Header.Get "X-Real-Ip") := by
  refine ⟨fun h => ?_, fun habs h => ?_, fun hc h => ?_⟩
  · simp [getRemoteIP, h]
  · simp [getRemoteIP, Header.Get_absent _ _ habs, h]
  · simp [getRemoteIP, hc, h]

/-- Witness of C3: with either header set to 1.2.3.4 the result is 1.2.3.4, the
other header and the peer address notwithstanding. -/
theorem getRemoteIP_header_precedence_witness :
    getRemoteIP
        { Method := "GET", RequestURI := "/", Host := "testurl.com",
          RemoteAddr := "9.9.9.9:80",
          Header := (Header.empty.Set "X-Cluster-Client-Ip" "1.2.3.4").Set "X-Real-Ip" "5.6.7.8" }
      = "1.2.3.4" ∧
    getRemoteIP
        { Method := "GET", RequestURI := "/", Host := "testurl.com",
          RemoteAddr := "9.9.9.9:80",
          Header := Header.empty.Set "X-Real-Ip" "1.2.3.4" }
      = "1.2.3.4" :=
  ⟨(getRemoteIP_header_precedence
      { Method := "GET", RequestURI := "/", Host := "testurl.com",
        RemoteAddr := "9.9.9.9:80",
        Header := (Header.empty.Set "X-Cluster-Client-Ip" "1.2.3.4").Set "X-Real-Ip" "5.6.7.8" }).1
      (by decide),
   (getRemoteIP_header_precedence
      { Method := "GET", RequestURI := "/", Host := "testurl.com",
        RemoteAddr := "9.9.9.9:80",
        Header := Header.empty.Set "X-Real-Ip" "1.2.3.4" }).2.1
      (by decide) (by decide)⟩

theorem Split_first_piece (sep : Char) (host rest : List Char) (hhost : sep ∉ host) :
    ∃ more, Split sep (host ++ sep :: rest) = host :: more := by
  induction host with
  | nil => exact ⟨Split sep rest, by simp [Split]⟩
  | cons c cs ih =>
    have hc : c ≠ sep := fun h => hhost (by simp [h])
    have hcs : sep ∉ cs := fun h => hhost (by simp [h])
    obtain ⟨more, hmore⟩ := ih hcs
    refine ⟨more, ?_⟩
    simp [Split, hc, hmore]

/-- When neither override header has a value and the host part of the peer
address contains no colon, getRemoteIP returns that host part. -/
theorem getRemoteIP_peer_host_without_colon (r : Request) (host port : List Char)
    (hc : r.Header.Get "X-Cluster-Client-Ip" = "") (hr : r.Header.Get "X-Real-Ip" = "")
    (haddr : r.RemoteAddr = String.mk (host ++ ':' :: port)) (hhost : ':' ∉ host) :
    getRemoteIP r = String.mk host := by
  obtain ⟨more, hmore⟩ := Split_first_piece ':' host port hhost
  simp [getRemoteIP, hc, hr, haddr, hmore]

/-- C9, at the failing input: with no override header and the peer address
[::1]:8080, which has host [::1] and port 8080, getRemoteIP returns the text
before the first colon, "[", and not the part before the last colon, "[::1]".
For the peer address 1.2.3.4:8080 it returns 1.2.3.4. -/
theorem getRemoteIP_ipv6_peer :
    getRemoteIP
        { Method := "GET", RequestURI := "/", Host := "testurl.com",
          RemoteAddr := "[::1]:8080", Header := Header.empty } = "[" ∧
    hostPortion "[::1]:8080" = "[::1]" ∧
    getRemoteIP
        { Method := "GET", RequestURI := "/", Host := "testurl.com",
          RemoteAddr := "1.2.3.4:8080", Header := Header.empty } = "1.2.3.4" ∧
    hostPortion "1.2.3.4:8080" = "1.2.3.4" := by
  decide

/-- C5: LogWithCorrelationIDS emits exactly one record, with the given message
and the fields correlation_id and user_correlation_id set to the given IDs; its
level is Debug, Info, Warn, Error, Panic or Fatal when the severity is "debug",
"info", "warn", "error", "panic" or "fatal", and Info for every other
severity string. -/
theorem LogWithCorrelationIDS_one_record (s m c u : String) :
    ∃ lvl : Level,
      (LogWithCorrelationIDS s m c u).entries =
        [{ level := lvl, message := m,
           fields := [⟨"correlation_id", .str c⟩, ⟨"user_correlation_id", .str u⟩] }] ∧
      (s = "debug" → lvl = DebugLevel) ∧
      (s = "info" → lvl = InfoLevel) ∧
      (s = "warn" → lvl = WarnLevel) ∧
      (s = "error" → lvl = ErrorLevel) ∧
      (s = "panic" → lvl = PanicLevel) ∧
      (s = "fatal" → lvl = FatalLevel) ∧
      (s ∉ ["debug", "info", "warn", "error", "panic", "fatal"] → lvl = InfoLevel) := by
  by_cases h1 : s = "debug"
  · subst h1
    exact ⟨DebugLevel, rfl, by decide⟩
  by_cases h2 : s = "error"
  · subst h2
    exact ⟨ErrorLevel, rfl, by decide⟩
  by_cases h3 : s = "warn"
  · subst h3
    exact ⟨WarnLevel, rfl, by decide⟩
  by_cases h4 : s = "fatal"
  · subst h4
    exact ⟨FatalLevel, rfl, by decide⟩
  by_cases h5 : s = "panic"
  · subst h5
    exact ⟨PanicLevel, rfl, by decide⟩
  refine ⟨InfoLevel, ?_, ?_⟩
  · simp [LogWithCorrelationIDS, Debug, Error, Warn, Fatal, Panic, h1, h2, h3, h4, h5,
      Logger.Info, Logger.log, Logger.With, logger, zapString]
  · simp [h1, h2, h3, h4, h5]

/-- Witness of C5: the severity "warn" gives one Warn record, and the
unlisted severity "verbose" one Info record. -/
theorem LogWithCorrelationIDS_one_record_witness :
    (LogWithCorrelationIDS "warn" "disk low" "cid" "uid").entries =
        [{ level := WarnLevel, message := "disk low",
           fields := [⟨"correlation_id", .str "cid"⟩, ⟨"user_correlation_id", .str "uid"⟩] }] ∧
    (LogWithCorrelationIDS "verbose" "disk low" "cid" "uid").entries =
        [{ level := InfoLevel, message := "disk low",
           fields := [⟨"correlation_id", .str "cid"⟩, ⟨"user_correlation_id", .str "uid"⟩] }] := by
  constructor
  · obtain ⟨lvl, hent, _, _, hwarn, _⟩ := LogWithCorrelationIDS_one_record "warn" "disk low" "cid" "uid"
    rw [hent, hwarn rfl]
  · obtain ⟨lvl, hent, _, _, _, _, _, _, hother⟩ :=
      LogWithCorrelationIDS_one_record "verbose" "disk low" "cid" "uid"
    rw [hent, hother (by decide)]

/-- C6: LogAppStop emits exactly one record with the fields type=lifecycle and
event=stop.  With an error the record is at Error severity, its message is
"stopping application: name (err)", and the record does not depend on the
signal; without an error the record is at Info severity and its message is
"stopping application: name (signal)", the signal rendered by its textual
name. -/
theorem LogAppStop_record (name : String) (signal other : Option Signal) (sig : Signal)
    (e : GoError) :
    LogAppStop name signal (some e) =
      { entries :=
          [{ level := ErrorLevel,
             message := "stopping application: " ++ name ++ " (" ++ e.Error ++ ")",
             fields := [⟨"type", .str "lifecycle"⟩, ⟨"event", .str "stop"⟩] }],
        control := .returned } ∧
    LogAppStop name signal (some e) = LogAppStop name other (some e) ∧
    LogAppStop name (some sig) none =
      { entries :=
          [{ level := InfoLevel,
             message := "stopping application: " ++ name ++ " (" ++ sig.String ++ ")",
             fields := [⟨"type", .str "lifecycle"⟩, ⟨"event", .str "stop"⟩] }],
        control := .returned } ∧
    (LogAppStop "stoping test" (some ⟨"interrupt"⟩) (some ⟨"serverErr"⟩)).entries.map
        (fun x => x.message) = ["stopping application: stoping test (serverErr)"] ∧
    (LogAppStop "stoping test" (some ⟨"interrupt"⟩) none).entries.map
        (fun x => x.message) = ["stopping application: stoping test (interrupt)"] :=
  ⟨rfl, rfl, rfl, by decide, by decide⟩

theorem Itoa_examples : Itoa 200 = "200" ∧ Itoa 404 = "404" ∧ Itoa 0 = "0" ∧ Itoa (-7) = "-7" := by
  decide

/-- C7: LogRequest emits exactly one Info record.  Its message is the decimal
rendering of the status code, then " ->", the method, a space and the request
URI; its fields are type=access, event=request, remote_ip=getRemoteIP(r),
host, url_path (the request URI), method, status_code, correlation_id and
user_correlation_id.  The last two are the values of the X-Correlation-Id and
X-User-Correlation-Id request headers: the first value stored under the name
when the request carries the header, and the empty string when the header is
absent. -/
theorem LogRequest_record (r : Request) (n : Int) :
    LogRequest r n =
      { entries :=
          [{ level := InfoLevel,
             message := Itoa n ++ " ->" ++ r.Method ++ " " ++ r.RequestURI,
             fields :=
               [ ⟨"type", .str "access"⟩,
                 ⟨"event", .str "request"⟩,
                 ⟨"remote_ip", .str (getRemoteIP r)⟩,
                 ⟨"host", .str r.Host⟩,
                 ⟨"url_path", .str r.RequestURI⟩,
                 ⟨"method", .str r.Method⟩,
                 ⟨"status_code", .int n⟩,
                 ⟨"correlation_id", .str (r.Header.Get "X-Correlation-Id")⟩,
                 ⟨"user_correlation_id", .str (r.Header.Get "X-User-Correlation-Id")⟩ ] }],
        control := .returned } ∧
    (∀ cid uid : String, ∀ more1 more2 : List String,
      r.Header "X-Correlation-Id" = some (cid :: more1) →
      r.Header "X-User-Correlation-Id" = some (uid :: more2) →
      LogRequest r n =
        { entries :=
            [{ level := InfoLevel,
               message := Itoa n ++ " ->" ++ r.Method ++ " " ++ r.RequestURI,
               fields :=
                 [ ⟨"type", .str "access"⟩,
                   ⟨"event", .str "request"⟩,
                   ⟨"remote_ip", .str (getRemoteIP r)⟩,
                   ⟨"host", .str r.Host⟩,
                   ⟨"url_path", .str r.RequestURI⟩,
                   ⟨"method", .str r.Method⟩,
                   ⟨"status_code", .int n⟩,
                   ⟨"correlation_id", .str cid⟩,
                   ⟨"user_correlation_id", .str uid⟩ ] }],
          control := .returned }) ∧
    (∀ cid : String, ∀ more1 : List String,
      r.Header "X-Correlation-Id" = some (cid :: more1) →
      r.Header "X-User-Correlation-Id" = none →
      LogRequest r n =
        { entries :=
            [{ level := InfoLevel,
               message := Itoa n ++ " ->" ++ r.Method ++ " " ++ r.RequestURI,
               fields :=
                 [ ⟨"type", .str "access"⟩,
                   ⟨"event", .str "request"⟩,
                   ⟨"remote_ip", .str (getRemoteIP r)⟩,
                   ⟨"host", .str r.Host⟩,
                   ⟨"url_path", .str r.RequestURI⟩,
                   ⟨"method", .str r.Method⟩,
                   ⟨"status_code", .int n⟩,
                   ⟨"correlation_id", .str cid⟩,
                   ⟨"user_correlation_id", .str ""⟩ ] }],
          control := .returned }) ∧
    (∀ uid : String, ∀ more2 : List String,
      r.Header "X-Correlation-Id" = none →
      r.Header "X-User-Correlation-Id" = some (uid :: more2) →
      LogRequest r n =
        { entries :=
            [{ level := InfoLevel,
               message := Itoa n ++ " ->" ++ r.Method ++ " " ++ r.RequestURI,
               fields :=
                 [ ⟨"type", .str "access"⟩,
                   ⟨"event", .str "request"⟩,
                   ⟨"remote_ip", .str (getRemoteIP r)⟩,
                   ⟨"host", .str r.Host⟩,
                   ⟨"url_path", .str r.RequestURI⟩,
                   ⟨"method", .str r.Method⟩,
                   ⟨"status_code", .int n⟩,
                   ⟨"correlation_id", .str ""⟩,
                   ⟨"user_correlation_id", .str uid⟩ ] }],
          control := .returned }) ∧
    (r.Header "X-Correlation-Id" = none →
      r.Header "X-User-Correlation-Id" = none →
      LogRequest r n =
        { entries :=
            [{ level := InfoLevel,
               message := Itoa n ++ " ->" ++ r.Method ++ " " ++ r.RequestURI,
               fields :=
                 [ ⟨"type", .str "access"⟩,
                   ⟨"event", .str "request"⟩,
                   ⟨"remote_ip", .str (getRemoteIP r)⟩,
                   ⟨"host", .str r.Host⟩,
                   ⟨"url_path", .str r.RequestURI⟩,
                   ⟨"method", .str r.Method⟩,
                   ⟨"status_code", .int n⟩,
                   ⟨"correlation_id", .str ""⟩,
                   ⟨"user_correlation_id", .str ""⟩ ] }],
          control := .returned }) := by
  have hrec : LogRequest r n =
      { entries :=
          [{ level := InfoLevel,
             message := Itoa n ++ " ->" ++ r.Method ++ " " ++ r.RequestURI,
             fields :=
               [ ⟨"type", .str "access"⟩,
                 ⟨"event", .str "request"⟩,
                 ⟨"remote_ip", .str (getRemoteIP r)⟩,
                 ⟨"host", .str r.Host⟩,
                 ⟨"url_path", .str r.RequestURI⟩,
                 ⟨"method", .str r.Method⟩,
                 ⟨"status_code", .int n⟩,
                 ⟨"correlation_id", .str (r.Header.Get "X-Correlation-Id")⟩,
                 ⟨"user_correlation_id", .str (r.Header.Get "X-User-Correlation-Id")⟩ ] }],
        control := .returned } := rfl
  have hpresent : ∀ (key v : String) (more : List String),
      r.Header key = some (v :: more) → r.Header.Get key = v := by
    intro key v more h
    simp [Header.Get, h]
  refine ⟨hrec, ?_, ?_, ?_, ?_⟩
  · intro cid uid more1 more2 h1 h2
    rw [hrec, hpresent _ _ _ h1, hpresent _ _ _ h2]
  · intro cid more1 h1 h2
    rw [hrec, hpresent _ _ _ h1, Header.Get_absent _ _ h2]
  · intro uid more2 h1 h2
    rw [hrec, Header.Get_absent _ _ h1, hpresent _ _ _ h2]
  · intro h1 h2
    rw [hrec, Header.Get_absent _ _ h1, Header.Get_absent _ _ h2]

/-- Witness of C7: GET /test/path with status 200 is logged with the message
"200 ->GET /test/path"; a request carrying X-Correlation-Id cid-1 and
X-User-Correlation-Id uid-1 is logged with these two values, and a request
carrying neither header with both fields empty. -/
theorem LogRequest_record_witness :
    LogRequest
        { Method := "GET", RequestURI := "/test/path", Host := "testurl.com",
          RemoteAddr := "127.0.0.1",
          Header := (Header.empty.Set "X-Correlation-Id" "cid-1").Set
            "X-User-Correlation-Id" "uid-1" } 200 =
      { entries :=
          [{ level := InfoLevel,
             message := "200 ->GET /test/path",
             fields :=
               [ ⟨"type", .str "access"⟩,
                 ⟨"event", .str "request"⟩,
                 ⟨"remote_ip", .str "127.0.0.1"⟩,
                 ⟨"host", .str "testurl.com"⟩,
                 ⟨"url_path", .str "/test/path"⟩,
                 ⟨"method", .str "GET"⟩,
                 ⟨"status_code", .int 200⟩,
                 ⟨"correlation_id", .str "cid-1"⟩,
                 ⟨"user_correlation_id", .str "uid-1"⟩ ] }],
        control := .returned } ∧
    LogRequest
        { Method := "GET", RequestURI := "/test/path", Host := "testurl.com",
          RemoteAddr := "127.0.0.1", Header := Header.empty } 200 =
      { entries :=
          [{ level := InfoLevel,
             message := "200 ->GET /test/path",
             fields :=
               [ ⟨"type", .str "access"⟩,
                 ⟨"event", .str "request"⟩,
                 ⟨"remote_ip", .str "127.0.0.1"⟩,
                 ⟨"host", .str "testurl.com"⟩,
                 ⟨"url_path", .str "/test/path"⟩,
                 ⟨"method", .str "GET"⟩,
                 ⟨"status_code", .int 200⟩,
                 ⟨"correlation_id", .str ""⟩,
                 ⟨"user_correlation_id", .str ""⟩ ] }],
        control := .returned } :=
  ⟨(LogRequest_record
      { Method := "GET", RequestURI := "/test/path", Host := "testurl.com",
          RemoteAddr := "127.0.0.1",
          Header := (Header.empty.Set "X-Correlation-Id" "cid-1").Set
            "X-User-Correlation-Id" "uid-1" } 200).2.1 "cid-1" "uid-1" [] [] rfl rfl,
   (LogRequest_record
      { Method := "GET", RequestURI := "/test/path", Host := "testurl.com",
          RemoteAddr := "127.0.0.1", Header := Header.empty } 200).2.2.2.2 rfl rfl⟩

/-- Counterexample to C10: for the level string "verbose", whose lower-cased
form is no key of logLevel, Set configures the threshold Info, which is not the
lowest level of the map, Debug. -/
theorem Set_unknown_level_not_lowest :
    String.mk ("verbose".data.map Char.toLower) ∉ logLevel.map Prod.fst ∧
    ("debug", DebugLevel) ∈ logLevel ∧
    (∀ e ∈ logLevel, DebugLevel ≤ e.2) ∧
    (Set (fun s => String.mk (s.data.map Char.toLower)) "verbose").Level ≠ DebugLevel := by
  decide

/-- C10, amended: for every level string whose lower-cased form is not one of
debug, info, warn, error, dpanic, panic, fatal, Set configures the threshold
Info, the zero value of the level type. -/
theorem Set_unknown_level_is_info (ToLower : String → String) (level : String)
    (hunknown : ToLower level ∉ ["debug", "info", "warn", "error", "dpanic", "panic", "fatal"]) :
    (Set ToLower level).Level = InfoLevel := by
  have hlook : logLevel.lookup (ToLower level) = none := by
    simp only [List.mem_cons, List.mem_singleton, List.not_mem_nil, or_false, not_or] at hunknown
    obtain ⟨h1, h2, h3, h4, h5, h6, h7⟩ := hunknown
    have b1 : (ToLower level == "debug") = false := by simp [h1]
    have b2 : (ToLower level == "info") = false := by simp [h2]
    have b3 : (ToLower level == "warn") = false := by simp [h3]
    have b4 : (ToLower level == "error") = false := by simp [h4]
    have b5 : (ToLower level == "dpanic") = false := by simp [h5]
    have b6 : (ToLower level == "panic") = false := by simp [h6]
    have b7 : (ToLower level == "fatal") = false := by simp [h7]
    simp [logLevel, List.lookup, b1, b2, b3, b4, b5, b6, b7]
  simp [Set, logLevelIndex, hlook, InfoLevel]

/-- Witness of C10, amended: the level string "Verbose". -/
theorem Set_unknown_level_is_info_witness :
    (fun s : String => String.mk (s.data.map Char.toLower)) "Verbose" ∉
        ["debug", "info", "warn", "error", "dpanic", "panic", "fatal"] ∧
    (Set (fun s => String.mk (s.data.map Char.toLower)) "Verbose").Level = InfoLevel :=
  ⟨by decide, Set_unknown_level_is_info _ "Verbose" (by decide)⟩

theorem WriteHeader_fold_calls (codes : List Int) (lrw : ResponseWriter) :
    (codes.foldl ResponseWriter.WriteHeader lrw).embedded.calls =
        lrw.embedded.calls ++ codes.map WriterCall.WriteHeader ∧
    (codes.foldl ResponseWriter.WriteHeader lrw).embedded.header = lrw.embedded.header := by
  induction codes generalizing lrw with
  | nil => simp
  | cons c cs ih =>
    simp only [List.foldl_cons, List.map_cons]
    rw [(ih _).1, (ih _).2]
    simp [ResponseWriter.WriteHeader, RealWriter.WriteHeader]

/-- C8: a fresh ResponseWriter has recorded status 200; after the WriteHeader
calls c1, ..., cn (n at least 1) its recorded status is cn, and the wrapped
writer has received exactly the calls WriteHeader(c1), ..., WriteHeader(cn), in
that order, after the calls it had received before; its header map is
untouched. -/
theorem ResponseWriter_records_last_code (w : RealWriter) (cs : List Int) (cn : Int) :
    (NewLoggingResponseWriter w).StatusCode = 200 ∧
    (NewLoggingResponseWriter w).embedded = w ∧
    ((cs ++ [cn]).foldl ResponseWriter.WriteHeader (NewLoggingResponseWriter w)).StatusCode
      = cn ∧
    ((cs ++ [cn]).foldl ResponseWriter.WriteHeader (NewLoggingResponseWriter w)).embedded.calls
      = w.calls ++ (cs ++ [cn]).map WriterCall.WriteHeader ∧
    ((cs ++ [cn]).foldl ResponseWriter.WriteHeader (NewLoggingResponseWriter w)).embedded.header
      = w.header := by
  refine ⟨rfl, rfl, ?_, ?_, ?_⟩
  · simp [List.foldl_append, ResponseWriter.WriteHeader]
  · exact (WriteHeader_fold_calls _ _).1
  · exact (WriteHeader_fold_calls _ _).2

theorem call_fold (ops : List Op) (lrw : ResponseWriter) :
    (ops.foldl ResponseWriter.call lrw).StatusCode =
        (match lastWriteHeader ops with
          | some code => code
          | none => lrw.StatusCode) ∧
    (ops.foldl ResponseWriter.call lrw).embedded.calls =
        lrw.embedded.calls ++ writerCalls ops ∧
    (ops.foldl ResponseWriter.call lrw).embedded.header =
        headerAfter lrw.embedded.header ops := by
  induction ops generalizing lrw with
  | nil => simp [lastWriteHeader, writerCalls, headerAfter]
  | cons op rest ih =>
    simp only [List.foldl_cons]
    obtain ⟨h1, h2, h3⟩ := ih (lrw.call op)
    rw [h1, h2, h3]
    cases op <;> cases hl : lastWriteHeader rest <;>
      simp [lastWriteHeader, writerCalls, headerAfter, hl, ResponseWriter.call,
        ResponseWriter.WriteHeader, ResponseWriter.Write, ResponseWriter.HeaderSet,
        RealWriter.WriteHeader, RealWriter.Write, RealWriter.HeaderSet]

/-- C1: both access-logging middlewares run the downstream handler once, on a
fresh ResponseWriter wrapping the writer of the server (the router form
applies the handler to the route parameters it received): the writer of the
server receives exactly the WriteHeader and Write calls of that one run, in
order, and the Header().Set calls reach its header map.  Once the handler has
returned they emit exactly one record, LogRequest(r, c), where r is the request
as the handler leaves it and c is the code of the last WriteHeader call of the
handler, or 200 when it made none.  A handler calling WriteHeader(404) on
GET / yields a record with message "404 ->GET /" and status_code 404. -/
theorem access_middleware_logs_final_status (next : Handler) (route : Handle)
    (rw : RealWriter) (r : Request) (ps : Params) :
    ((HTTPHandlerMiddleware next rw r).rw.calls = rw.calls ++ writerCalls (next r).ops ∧
      (HTTPHandlerMiddleware next rw r).rw.header = headerAfter rw.header (next r).ops ∧
      (HTTPHandlerMiddleware next rw r).request = (next r).request ∧
      (HTTPHandlerMiddleware next rw r).log =
        LogRequest (next r).request (expectedStatus (next r).ops) ∧
      (HTTPHandlerMiddleware next rw r).log.entries.length = 1 ∧
      (HTTPHandlerMiddleware next rw r).log.control = .returned) ∧
    ((HTTPRouterMiddleware route rw r ps).rw.calls =
        rw.calls ++ writerCalls (route r ps).ops ∧
      (HTTPRouterMiddleware route rw r ps).rw.header =
        headerAfter rw.header (route r ps).ops ∧
      (HTTPRouterMiddleware route rw r ps).request = (route r ps).request ∧
      (HTTPRouterMiddleware route rw r ps).log =
        LogRequest (route r ps).request (expectedStatus (route r ps).ops) ∧
      (HTTPRouterMiddleware route rw r ps).log.entries.length = 1 ∧
      (HTTPRouterMiddleware route rw r ps).log.control = .returned) ∧
    ((HTTPRouterMiddleware (fun req _ => ⟨[.WriteHeader 404], req⟩) ⟨Header.empty, []⟩
        { Method := "GET", RequestURI := "/", Host := "testurl.com", RemoteAddr := "",
          Header := Header.empty } []).log.entries.map
        (fun x => (x.message, x.level,
          x.fields.filterMap (fun f =>
            match f.value with
            | .int n => some (f.key, n)
            | _ => none)))
      = [("404 ->GET /", InfoLevel, [("status_code", 404)])]) ∧
    ((HTTPHandlerMiddleware (fun req => ⟨[.Write [104, 105]], req⟩) ⟨Header.empty, []⟩
        { Method := "GET", RequestURI := "/", Host := "testurl.com", RemoteAddr := "",
          Header := Header.empty }).log.entries.map (fun x => x.message)
      = ["200 ->GET /"]) := by
  have hstatus : ∀ ops : List Op,
      (ops.foldl ResponseWriter.call (NewLoggingResponseWriter rw)).StatusCode
        = expectedStatus ops := by
    intro ops
    rw [(call_fold ops _).1]
    cases hl : lastWriteHeader ops <;> simp [expectedStatus, hl, NewLoggingResponseWriter, StatusOK]
  refine ⟨⟨?_, ?_, rfl, ?_, rfl, rfl⟩, ⟨?_, ?_, rfl, ?_, rfl, rfl⟩, by decide, by decide⟩
  · exact (call_fold (next r).ops (NewLoggingResponseWriter rw)).2.1
  · exact (call_fold (next r).ops (NewLoggingResponseWriter rw)).2.2
  · simp only [HTTPHandlerMiddleware]
    rw [hstatus]
  · exact (call_fold (route r ps).ops (NewLoggingResponseWriter rw)).2.1
  · exact (call_fold (route r ps).ops (NewLoggingResponseWriter rw)).2.2
  · simp only [HTTPRouterMiddleware]
    rw [hstatus]

theorem CorrelationMiddleware_both_generated {α : Type}
    (next : RealWriter → Request → UUIDSource → α) (rw : RealWriter) (r : Request)
    (u : UUIDSource) (hc : r.Header.Get "X-Correlation-Id" = "")
    (hu : r.Header.Get "X-User-Correlation-Id" = "") :
    CorrelationMiddleware next rw r u =
      next
        ⟨(rw.header.Set "X-Correlation-Id" (u.gen u.drawn)).Set "X-User-Correlation-Id"
          (u.gen (u.drawn + 1)), rw.calls⟩
        ⟨r.Method, r.RequestURI, r.Host, r.RemoteAddr,
          (r.Header.Set "X-Correlation-Id" (u.gen u.drawn)).Set "X-User-Correlation-Id"
            (u.gen (u.drawn + 1))⟩
        ⟨u.gen, u.drawn + 1 + 1⟩ := by
  have hu2 : (r.Header.Set "X-Correlation-Id" (u.gen u.drawn)).Get "X-User-Correlation-Id" = "" := by
    rw [Header.Get_Set_other _ _ _ _ (by decide)]; exact hu
  simp [CorrelationMiddleware, CorrelationIDHeader, UserCorrelationIDHeader, hc, hu2,
    UUIDSource.NewString, RealWriter.HeaderSet]

theorem CorrelationMiddleware_first_generated {α : Type}
    (next : RealWriter → Request → UUIDSource → α) (rw : RealWriter) (r : Request)
    (u : UUIDSource) (hc : r.Header.Get "X-Correlation-Id" = "")
    (hu : r.Header.Get "X-User-Correlation-Id" ≠ "") :
    CorrelationMiddleware next rw r u =
      next
        ⟨(rw.header.Set "X-Correlation-Id" (u.gen u.drawn)).Set "X-User-Correlation-Id"
          (r.Header.Get "X-User-Correlation-Id"), rw.calls⟩
        ⟨r.Method, r.RequestURI, r.Host, r.RemoteAddr,
          r.Header.Set "X-Correlation-Id" (u.gen u.drawn)⟩
        ⟨u.gen, u.drawn + 1⟩ := by
  have hu2 : (r.Header.Set "X-Correlation-Id" (u.gen u.drawn)).Get "X-User-Correlation-Id" =
      r.Header.Get "X-User-Correlation-Id" := by
    rw [Header.Get_Set_other _ _ _ _ (by decide)]
  simp [CorrelationMiddleware, CorrelationIDHeader, UserCorrelationIDHeader, hc, hu2, hu,
    UUIDSource.NewString, RealWriter.HeaderSet]

theorem CorrelationMiddleware_second_generated {α : Type}
    (next : RealWriter → Request → UUIDSource → α) (rw : RealWriter) (r : Request)
    (u : UUIDSource) (hc : r.Header.Get "X-Correlation-Id" ≠ "")
    (hu : r.Header.Get "X-User-Correlation-Id" = "") :
    CorrelationMiddleware next rw r u =
      next
        ⟨(rw.header.Set "X-Correlation-Id" (r.Header.Get "X-Correlation-Id")).Set
          "X-User-Correlation-Id" (u.gen u.drawn), rw.calls⟩
        ⟨r.Method, r.RequestURI, r.Host, r.RemoteAddr,
          r.Header.Set "X-User-Correlation-Id" (u.gen u.drawn)⟩
        ⟨u.gen, u.drawn + 1⟩ := by
  simp [CorrelationMiddleware, CorrelationIDHeader, UserCorrelationIDHeader, hc, hu,
    UUIDSource.NewString, RealWriter.HeaderSet]

theorem CorrelationMiddleware_none_generated {α : Type}
    (next : RealWriter → Request → UUIDSource → α) (rw : RealWriter) (r : Request)
    (u : UUIDSource) (hc : r.Header.Get "X-Correlation-Id" ≠ "")
    (hu : r.Header.Get "X-User-Correlation-Id" ≠ "") :
    CorrelationMiddleware next rw r u =
      next
        ⟨(rw.header.Set "X-Correlation-Id" (r.Header.Get "X-Correlation-Id")).Set
          "X-User-Correlation-Id" (r.Header.Get "X-User-Correlation-Id"), rw.calls⟩
        r u := by
  simp [CorrelationMiddleware, CorrelationIDHeader, UserCorrelationIDHeader, hc, hu,
    RealWriter.HeaderSet]

theorem CorrelationMiddleware_fixed (rw : RealWriter) (r : Request) (u : UUIDSource)
    (hc : r.Header.Get "X-Correlation-Id" ≠ "")
    (hu : r.Header.Get "X-User-Correlation-Id" ≠ "")
    (hrc : rw.header "X-Correlation-Id" = some [r.Header.Get "X-Correlation-Id"])
    (hru : rw.header "X-User-Correlation-Id" = some [r.Header.Get "X-User-Correlation-Id"]) :
    CorrelationMiddleware handed rw r u = (rw, r, u) := by
  rw [CorrelationMiddleware_none_generated handed rw r u hc hu]
  have hh : (rw.header.Set "X-Correlation-Id" (r.Header.Get "X-Correlation-Id")).Set
      "X-User-Correlation-Id" (r.Header.Get "X-User-Correlation-Id") = rw.header := by
    funext k
    by_cases hk1 : k = "X-Correlation-Id"
    · subst hk1
      simp [Header.Set, hrc]
    · by_cases hk2 : k = "X-User-Correlation-Id"
      · subst hk2
        simp [Header.Set, hru]
      · simp [Header.Set, hk1, hk2]
  simp [handed, hh]

/-- C2: with a UUID source whose strings are non-empty and pairwise distinct,
CorrelationMiddleware hands the downstream handler a request whose
X-Correlation-Id and X-User-Correlation-Id headers are both non-empty, and a
writer whose header map holds exactly those two values under the same names
(and is otherwise as before, no call having been made on the writer).  A
header that was non-empty on the inbound request is passed through unchanged,
so a request carrying both is left unchanged, no UUID is drawn, and a second
run of the middleware changes nothing.  A header that was absent or empty gets
the next string drawn from the source, and when both are generated the two
values differ. -/
theorem CorrelationMiddleware_propagates (rw : RealWriter) (r : Request) (u : UUIDSource)
    (hne : ∀ i, u.gen i ≠ "") (hinj : ∀ i j, i ≠ j → u.gen i ≠ u.gen j) :
    (∀ (α : Type) (next : RealWriter → Request → UUIDSource → α),
      CorrelationMiddleware next rw r u =
        next (CorrelationMiddleware handed rw r u).1 (CorrelationMiddleware handed rw r u).2.1
          (CorrelationMiddleware handed rw r u).2.2) ∧
    (CorrelationMiddleware handed rw r u).2.1.Header.Get "X-Correlation-Id" ≠ "" ∧
    (CorrelationMiddleware handed rw r u).2.1.Header.Get "X-User-Correlation-Id" ≠ "" ∧
    (CorrelationMiddleware handed rw r u).1.header "X-Correlation-Id" =
      some [(CorrelationMiddleware handed rw r u).2.1.Header.Get "X-Correlation-Id"] ∧
    (CorrelationMiddleware handed rw r u).1.header "X-User-Correlation-Id" =
      some [(CorrelationMiddleware handed rw r u).2.1.Header.Get "X-User-Correlation-Id"] ∧
    (∀ k, k ≠ "X-Correlation-Id" → k ≠ "X-User-Correlation-Id" →
      (CorrelationMiddleware handed rw r u).1.header k = rw.header k ∧
      (CorrelationMiddleware handed rw r u).2.1.Header k = r.Header k) ∧
    (CorrelationMiddleware handed rw r u).1.calls = rw.calls ∧
    (r.Header.Get "X-Correlation-Id" ≠ "" →
      (CorrelationMiddleware handed rw r u).2.1.Header "X-Correlation-Id" =
        r.Header "X-Correlation-Id") ∧
    (r.Header.Get "X-User-Correlation-Id" ≠ "" →
      (CorrelationMiddleware handed rw r u).2.1.Header "X-User-Correlation-Id" =
        r.Header "X-User-Correlation-Id") ∧
    (r.Header.Get "X-Correlation-Id" ≠ "" → r.Header.Get "X-User-Correlation-Id" ≠ "" →
      (CorrelationMiddleware handed rw r u).2.1 = r ∧
      (CorrelationMiddleware handed rw r u).2.2 = u) ∧
    (r.Header.Get "X-Correlation-Id" = "" →
      (CorrelationMiddleware handed rw r u).2.1.Header "X-Correlation-Id" =
        some [u.gen u.drawn]) ∧
    (r.Header.Get "X-Correlation-Id" ≠ "" → r.Header.Get "X-User-Correlation-Id" = "" →
      (CorrelationMiddleware handed rw r u).2.1.Header "X-User-Correlation-Id" =
        some [u.gen u.drawn]) ∧
    (r.Header.Get "X-Correlation-Id" = "" → r.Header.Get "X-User-Correlation-Id" = "" →
      (CorrelationMiddleware handed rw r u).2.1.Header "X-User-Correlation-Id" =
        some [u.gen (u.drawn + 1)] ∧
      (CorrelationMiddleware handed rw r u).2.1.Header.Get "X-Correlation-Id" ≠
        (CorrelationMiddleware handed rw r u).2.1.Header.Get "X-User-Correlation-Id") ∧
    CorrelationMiddleware handed (CorrelationMiddleware handed rw r u).1
        (CorrelationMiddleware handed rw r u).2.1 (CorrelationMiddleware handed rw r u).2.2
      = CorrelationMiddleware handed rw r u := by
  by_cases hc : r.Header.Get "X-Correlation-Id" = "" <;>
    by_cases hu : r.Header.Get "X-User-Correlation-Id" = ""
  · have hval := CorrelationMiddleware_both_generated handed rw r u hc hu
    have g0 := hne u.drawn
    have g1 := hne (u.drawn + 1)
    have g01 := hinj u.drawn (u.drawn + 1) (by omega)
    refine ⟨fun α next => ?_, ?_⟩
    · rw [hval, CorrelationMiddleware_both_generated next rw r u hc hu]
      rfl
    rw [hval]
    simp only [handed]
    refine ⟨?_, ?_, ?_, ?_, ?_, ?_, ?_, ?_, ?_, ?_, ?_, ?_, ?_⟩
    all_goals first
      | (simp [Header.Get, Header.Set, hc, hu, g0, g1, g01]; done)
      | (intro k hk1 hk2; simp [Header.Set, hk1, hk2]; done)
      | (intro h; exact absurd hc h)
      | (intro h; exact absurd hu h)
      | (apply CorrelationMiddleware_fixed <;> simp [Header.Get, Header.Set, g0, g1]; done)
  · have hval := CorrelationMiddleware_first_generated handed rw r u hc hu
    have g0 := hne u.drawn
    have hget : (r.Header.Set "X-Correlation-Id" (u.gen u.drawn)).Get "X-User-Correlation-Id" =
        r.Header.Get "X-User-Correlation-Id" := Header.Get_Set_other _ _ _ _ (by decide)
    refine ⟨fun α next => ?_, ?_⟩
    · rw [hval, CorrelationMiddleware_first_generated next rw r u hc hu]
      rfl
    rw [hval]
    simp only [handed]
    refine ⟨?_, ?_, ?_, ?_, ?_, ?_, ?_, ?_, ?_, ?_, ?_, ?_, ?_⟩
    all_goals first
      | (simp [Header.Get, Header.Set, hc, hu, g0]; done)
      | (intro k hk1 hk2; simp [Header.Set, hk1, hk2]; done)
      | (intro h; exact absurd hc h)
      | (intro h; exact absurd h hu)
      | (intro _ h; exact absurd h hu)
      | (apply CorrelationMiddleware_fixed <;>
          simp only [hget, Header.Get_Set_same] <;> simp [Header.Set, g0, hu]; done)
  · have hval := CorrelationMiddleware_second_generated handed rw r u hc hu
    have g0 := hne u.drawn
    have hget : (r.Header.Set "X-User-Correlation-Id" (u.gen u.drawn)).Get "X-Correlation-Id" =
        r.Header.Get "X-Correlation-Id" := Header.Get_Set_other _ _ _ _ (by decide)
    refine ⟨fun α next => ?_, ?_⟩
    · rw [hval, CorrelationMiddleware_second_generated next rw r u hc hu]
      rfl
    rw [hval]
    simp only [handed]
    refine ⟨?_, ?_, ?_, ?_, ?_, ?_, ?_, ?_, ?_, ?_, ?_, ?_, ?_⟩
    all_goals first
      | (simp [Header.Get, Header.Set, hc, hu, g0]; done)
      | (intro k hk1 hk2; simp [Header.Set, hk1, hk2]; done)
      | (intro h; exact absurd h hc)
      | (intro h; exact absurd hu h)
      | (intro _ h; exact absurd hu h)
      | (apply CorrelationMiddleware_fixed <;>
          simp only [hget, Header.Get_Set_same] <;> simp [Header.Set, g0, hc]; done)
  · have hval := CorrelationMiddleware_none_generated handed rw r u hc hu
    refine ⟨fun α next => ?_, ?_⟩
    · rw [hval, CorrelationMiddleware_none_generated next rw r u hc hu]
      rfl
    rw [hval]
    simp only [handed]
    refine ⟨?_, ?_, ?_, ?_, ?_, ?_, ?_, ?_, ?_, ?_, ?_, ?_, ?_⟩
    all_goals first
      | (simp [Header.Set, hc, hu]; done)
      | (intro k hk1 hk2; simp [Header.Set, hk1, hk2]; done)
      | (apply CorrelationMiddleware_fixed <;> simp [Header.Set, hc, hu]; done)

theorem sampleUUID_ne_empty (i : Nat) : sampleUUID i ≠ "" := by
  intro h
  have hlen := congrArg (fun t : String => t.data.length) h
  simp [sampleUUID] at hlen

theorem sampleUUID_injective (i j : Nat) (hij : i ≠ j) : sampleUUID i ≠ sampleUUID j := by
  intro h
  have hlen := congrArg (fun t : String => t.data.length) h
  simp [sampleUUID] at hlen
  exact hij hlen

/-- Witness of C2: a request without correlation headers, served with the
sample source, reaches the handler with the first two strings of the source in
its two headers, and the same two values on the response. -/
theorem CorrelationMiddleware_propagates_witness :
    (∀ i, sampleUUID i ≠ "") ∧
    (∀ i j, i ≠ j → sampleUUID i ≠ sampleUUID j) ∧
    (CorrelationMiddleware handed ⟨Header.empty, []⟩
        { Method := "GET", RequestURI := "/", Host := "testurl.com", RemoteAddr := "1.2.3.4:8080",
          Header := Header.empty } ⟨sampleUUID, 0⟩).2.1.Header "X-Correlation-Id" = some ["a"] ∧
    (CorrelationMiddleware handed ⟨Header.empty, []⟩
        { Method := "GET", RequestURI := "/", Host := "testurl.com", RemoteAddr := "1.2.3.4:8080",
          Header := Header.empty } ⟨sampleUUID, 0⟩).2.1.Header "X-User-Correlation-Id" = some ["aa"] ∧
    (CorrelationMiddleware handed ⟨Header.empty, []⟩
        { Method := "GET", RequestURI := "/", Host := "testurl.com", RemoteAddr := "1.2.3.4:8080",
          Header := Header.empty } ⟨sampleUUID, 0⟩).1.header "X-Correlation-Id" = some ["a"] :=
  have h := CorrelationMiddleware_propagates ⟨Header.empty, []⟩
    { Method := "GET", RequestURI := "/", Host := "testurl.com", RemoteAddr := "1.2.3.4:8080",
      Header := Header.empty } ⟨sampleUUID, 0⟩ sampleUUID_ne_empty sampleUUID_injective
  ⟨sampleUUID_ne_empty, sampleUUID_injective,
    h.2.2.2.2.2.2.2.2.2.2.1 (by decide),
    (h.2.2.2.2.2.2.2.2.2.2.2.2.1 (by decide) (by decide)).1,
    h.2.2.2.1.trans (by decide)⟩

/-- C4, at the failing inputs: when the JSON encoding of the arguments is a
boolean, a number, a string or an array, json.Unmarshal fails and leaves the
map nil, the assignment of parse_error to the nil map panics, and LogAppStart
emits no record.  When the arguments cannot be marshalled, LogAppStart returns
and emits one Info record with the fields type and event only, without
parse_error.  Arguments that encode as an object are logged field by field, in
whatever order the map is visited; when a number inside such an object is out
of range the map is allocated, and the record carries parse_error with the text
of the error. -/
theorem LogAppStart_decode_failure_panics (inRange : String → Bool) (order : MapOrder)
    (name err text s : String) (b : Bool) (items : List JSON) :
    LogAppStart inRange order name (.encodes (.string s)) =
      { entries := [], control := .panicked "assignment to entry in nil map" } ∧
    LogAppStart inRange order name (.encodes (.number text)) =
      { entries := [], control := .panicked "assignment to entry in nil map" } ∧
    LogAppStart inRange order name (.encodes (.bool b)) =
      { entries := [], control := .panicked "assignment to entry in nil map" } ∧
    LogAppStart inRange order name (.encodes (.array items)) =
      { entries := [], control := .panicked "assignment to entry in nil map" } ∧
    LogAppStart inRange order name (.unsupported err) =
      { entries :=
          [{ level := InfoLevel, message := "starting application: " ++ name,
             fields := [⟨"type", .str "lifecycle"⟩, ⟨"event", .str "start"⟩] }],
        control := .returned } ∧
    LogAppStart inRange order "app" (.encodes (.string "foo")) =
      { entries := [], control := .panicked "assignment to entry in nil map" } ∧
    (∃ rest : List Field,
      LogAppStart inRange order "starting test"
          (.encodes (.object [("Arg1", .string "foo"), ("Arg2", .string "bar")])) =
        { entries :=
            [{ level := InfoLevel, message := "starting application: starting test",
               fields := [⟨"type", .str "lifecycle"⟩, ⟨"event", .str "start"⟩] ++ rest }],
          control := .returned } ∧
      rest.Perm [⟨"Arg1", .str "foo"⟩, ⟨"Arg2", .str "bar"⟩]) ∧
    (∃ rest : List Field,
      LogAppStart (fun t => decide (t ≠ "1e999")) order "app"
          (.encodes (.object [("n", .number "1e999")])) =
        { entries :=
            [{ level := InfoLevel, message := "starting application: app",
               fields := [⟨"type", .str "lifecycle"⟩, ⟨"event", .str "start"⟩] ++ rest }],
          control := .returned } ∧
      rest.Perm
        [⟨"n", .any .null⟩,
         ⟨"parse_error",
           .str "json: cannot unmarshal number 1e999 into Go value of type float64"⟩]) := by
  refine ⟨rfl, rfl, rfl, ?_, rfl, rfl, ?_, ?_⟩
  · simp only [LogAppStart, Marshal, Unmarshal]
    cases (JSON.array items).tooDeep maxNestingDepth <;> rfl
  · exact ⟨_, rfl, (order.perm [("Arg1", .string "foo"), ("Arg2", .string "bar")]).map _⟩
  · exact ⟨_, rfl, (order.perm
      [("n", .null), ("parse_error",
        .string "json: cannot unmarshal number 1e999 into Go value of type float64")]).map _⟩

end Logging
